import Mathlib

/-!
Shallow embedding of the Harvest-More auth/session bootstrap layer.

Sources embedded here:
- src/unnamed/part_000 (hooks/useAuth-fixed.js): loadProfile, initAuth,
  the onAuthStateChange listener and its SIGNED_OUT branch;
- src/pages/api/auth/link-profile.js: the profile provisioning API route;
- src/supabase/functions/create-user-profile.ts: the edge-function provisioner;
- src/lib/supabase.js and the embedded lib variant inside
  src/hooks/useAuth-with-edge-function.js: getSupabaseBrowser / resetSupabaseClient.

External collaborators (the Supabase client, fetch, the datastore) are
modelled as environment parameters: every external call outcome is an
explicit input, and the embedding records the effects (number of lookup
requests, provisioning calls, inter-retry delays, de-duplication marker
changes) that the claims talk about.
-/

deriving instance DecidableEq for Except

namespace HarvestMore

/-- True iff the first list is an initial segment of the second. -/
def leadsWith : List Char → List Char → Bool
  | [], _ => true
  | _ :: _, [] => false
  | p :: ps, c :: cs => p == c && leadsWith ps cs

/-- True iff pat occurs as a contiguous sublist. -/
def hasSub (pat : List Char) : List Char → Bool
  | [] => leadsWith pat []
  | c :: cs => leadsWith pat (c :: cs) || hasSub pat cs

/-- Models the JavaScript test `err.message?.includes('aborted')` used by the
retry policy: true iff the string "aborted" occurs in the message. -/
def includesAborted (msg : String) : Bool :=
  hasSub "aborted".toList msg.toList

/-- A row of the public.utilisateurs table, with the column names of the
source (the spec calls statut/date_inscription/derniere_connexion
status/registeredAt/lastLoginAt). -/
structure Profile where
  id_utilisateur : Nat
  id_auth : String
  email : String
  nom : String
  prenom : String
  telephone : String
  role : String
  statut : String
  date_inscription : String
  derniere_connexion : String
deriving Repr, DecidableEq

/-- The auth principal carried by a session (currentSession.user). -/
structure AuthUser where
  id : String
  email : String
deriving Repr, DecidableEq

/-- An identity-provider session; the code only reads session.user. -/
structure Session where
  user : AuthUser
deriving Repr, DecidableEq

/-- A datastore error as surfaced by the provider (error.code / error.message). -/
structure DbError where
  code : String
  message : String
deriving Repr, DecidableEq

/-- maxRetries of loadProfile in hooks/useAuth-fixed.js (src/unnamed/part_000). -/
def maxRetries : Nat := 2

/-- Environment of one loadProfile run: the outcome of the profile query at
each retryCount (an error message, a row, or a clean miss), the email the
auth.getUser call returns, and the outcome of the provisioning call
(the POST to /api/auth/link-profile as seen after response/json decoding:
either the returned profile or the thrown error message). -/
structure LoadEnv where
  lookup : Nat → Except String (Option Profile)
  authEmail : String
  provision : Except String Profile

/-- Observable outcome of a loadProfile call: the value returned or error
thrown, the number of profile queries issued, provisioning calls made and
inter-retry delays awaited, plus the de-duplication marker bookkeeping
(markers is the final contents of loadProfileAttempted, added the keys this
call inserted, scheduled the keys whose deletion the finally block scheduled
for 5 seconds later; the empty-authUserId early return inserts its key but
never reaches the finally, so its key is added yet never scheduled). -/
structure LoadOut where
  result : Except String (Option Profile)
  lookups : Nat
  provisions : Nat
  delays : Nat
  markers : List (String × Nat)
  added : List (String × Nat)
  scheduled : List (String × Nat)
deriving Repr, DecidableEq

/-- Unreachable fuel-exhaustion default (the wrapper supplies enough fuel:
recursion only happens while retryCount < maxRetries). -/
def deadOut (markers : List (String × Nat)) : LoadOut :=
  { result := .error "fuel exhausted", lookups := 0, provisions := 0, delays := 0,
    markers := markers, added := [], scheduled := [] }

/-- loadProfile of src/unnamed/part_000 lines 23-144, with fuel driving the
bounded recursion. Control flow follows the source: the de-duplication check
and marker insert come first, then the empty-authUserId guard (return null),
then the try block (profile query with timeout; on profileError: retry when
the message includes "aborted" and retryCount < maxRetries, else throw; on a
clean miss: provisioning via the API; on a hit: return the row). A throw
inside the try is caught by the same function's catch, which retries again
under the same "aborted" condition; the finally schedules deletion of this
call's marker. Within one burst no scheduled deletion fires (deletions come
5s after a call finished while every later step of the burst happens 1s
after one), so markers only grow during a call. -/
def loadGo (env : LoadEnv) : Nat → List (String × Nat) → String → Nat → LoadOut
  | 0, markers, _, _ => deadOut markers
  | fuel + 1, markers, authUserId, retryCount =>
    let cacheKey := (authUserId, retryCount)
    if markers.contains cacheKey then
      { result := .ok none, lookups := 0, provisions := 0, delays := 0,
        markers := markers, added := [], scheduled := [] }
    else
      let m1 := cacheKey :: markers
      if authUserId = "" then
        { result := .ok none, lookups := 0, provisions := 0, delays := 0,
          markers := m1, added := [cacheKey], scheduled := [] }
      else
        let inner : LoadOut :=
          match env.lookup retryCount with
          | .error msg =>
            if includesAborted msg ∧ retryCount < maxRetries then
              let r := loadGo env fuel m1 authUserId (retryCount + 1)
              { r with lookups := r.lookups + 1, delays := r.delays + 1 }
            else
              { result := .error msg, lookups := 1, provisions := 0, delays := 0,
                markers := m1, added := [], scheduled := [] }
          | .ok (some userRow) =>
              { result := .ok (some userRow), lookups := 1, provisions := 0, delays := 0,
                markers := m1, added := [], scheduled := [] }
          | .ok none =>
            match env.provision with
            | .ok p =>
              { result := .ok (some p), lookups := 1, provisions := 1, delays := 0,
                markers := m1, added := [], scheduled := [] }
            | .error msg =>
              { result := .error msg, lookups := 1, provisions := 1, delays := 0,
                markers := m1, added := [], scheduled := [] }
        let caught : LoadOut :=
          match inner.result with
          | .ok _ => inner
          | .error msg =>
            if includesAborted msg ∧ retryCount < maxRetries then
              let r := loadGo env fuel inner.markers authUserId (retryCount + 1)
              { result := r.result, lookups := inner.lookups + r.lookups,
                provisions := inner.provisions + r.provisions,
                delays := inner.delays + r.delays + 1,
                markers := r.markers, added := inner.added ++ r.added,
                scheduled := inner.scheduled ++ r.scheduled }
            else inner
        { caught with added := cacheKey :: caught.added,
                      scheduled := caught.scheduled ++ [cacheKey] }

/-- loadProfile entry point; fuel 3 covers every chain reachable from a
retryCount of 0 (recursion requires retryCount < maxRetries = 2). -/
def loadProfile (env : LoadEnv) (markers : List (String × Nat))
    (authUserId : String) (retryCount : Nat) : LoadOut :=
  loadGo env 3 markers authUserId retryCount

/-- A de-duplication marker of loadProfileAttempted together with its
deletion deadline: the finally block schedules deletion 5 seconds after the
call completes; a key added by the empty-authUserId early return has no
deadline because that path never reaches the finally. -/
structure Marker where
  key : String × Nat
  expires : Option Nat
deriving Repr, DecidableEq

/-- The de-duplication expiry window: the 5000 ms of the
setTimeout(... , 5000) in loadProfile's finally block. -/
def dedupWindow : Nat := 5000

/-- Markers still present at the given time (a scheduled deletion has fired
once its deadline is reached). -/
def liveMarkers (now : Nat) (ms : List Marker) : List Marker :=
  ms.filter fun m =>
    match m.expires with
    | none => true
    | some d => decide (now < d)

/-- One top-level loadProfile call at a given time against the current
marker set: expired markers are gone, the call runs (modelled as completing
at its issue time, so deletion deadlines are now + 5000), and the keys it
added become markers with their scheduled deadlines. -/
def callLoad (env : LoadEnv) (ms : List Marker) (now : Nat)
    (authUserId : String) : LoadOut × List Marker :=
  let live := liveMarkers now ms
  let out := loadProfile env (live.map (·.key)) authUserId 0
  (out, live ++ out.added.map fun k =>
    { key := k,
      expires := if out.scheduled.contains k then some (now + dedupWindow) else none })

/-- Request body of POST /api/auth/link-profile with the source's defaults
already applied (nom, prenom default to the empty string, role to
agriculteur). -/
structure LinkBody where
  id_auth : String
  email : String
  nom : String := ""
  prenom : String := ""
  role : String := "agriculteur"
deriving Repr, DecidableEq

/-- Response of the link-profile API route: HTTP status plus the JSON body
fields { ok, user?, error? }. -/
structure LinkResp where
  status : Nat
  ok : Bool
  user : Option Profile := none
  error : Option String := none
deriving Repr, DecidableEq

/-- The row the link-profile handler inserts (email lowercased, statut
'actif', both date columns set to now) as echoed back by
insert(...).select().single() with the generated primary key. -/
def createdRow (b : LinkBody) (now : String) (genId : Nat) : Profile :=
  { id_utilisateur := genId, id_auth := b.id_auth, email := b.email.toLower,
    nom := b.nom, prenom := b.prenom, telephone := "", role := b.role,
    statut := "actif", date_inscription := now, derniere_connexion := now }

/-- Handler of src/pages/api/auth/link-profile.js. Environment inputs:
whether the required env vars are present, the outcome of the existence
check, and the outcome of the insert (a generated id on success). On insert
error code 23505 it answers 409 with a duplicate-profile error (it does not
re-fetch). -/
def linkProfileHandler (method : String) (b : LinkBody) (envPresent : Bool)
    (check : Except DbError (Option Profile)) (insert : Except DbError Nat)
    (now : String) : LinkResp :=
  if method ≠ "POST" then
    { status := 405, ok := false, error := some "Method not allowed" }
  else if b.id_auth = "" ∨ b.email = "" then
    { status := 400, ok := false, error := some "id_auth et email requis" }
  else if ¬envPresent then
    { status := 500, ok := false, error := some "Configuration serveur incomplète" }
  else
    match check with
    | .error _ => { status := 500, ok := false, error := some "Erreur vérification profil" }
    | .ok (some existing) => { status := 200, ok := true, user := some existing }
    | .ok none =>
      match insert with
      | .error e =>
        if e.code = "23505" then
          { status := 409, ok := false, error := some "Un profil avec cet email existe déjà" }
        else
          { status := 500, ok := false,
            error := some (if e.message = "" then "Échec création profil" else e.message) }
      | .ok genId => { status := 201, ok := true, user := some (createdRow b now genId) }

/-- Request body of the create-user-profile edge function with defaults
applied (telephone also defaults to the empty string). -/
structure EdgeBody where
  id_auth : String
  email : String
  nom : String := ""
  prenom : String := ""
  role : String := "agriculteur"
  telephone : String := ""
deriving Repr, DecidableEq

/-- Response of the edge function: HTTP status plus { ok, profile?, existed?,
error? }. -/
structure EdgeResp where
  status : Nat
  ok : Bool
  profile : Option Profile := none
  existed : Option Bool := none
  error : Option String := none
deriving Repr, DecidableEq

/-- The row the edge function inserts (email not lowercased, statut 'actif',
dates set to now) as echoed back with the generated primary key. -/
def edgeCreatedRow (b : EdgeBody) (now : String) (genId : Nat) : Profile :=
  { id_utilisateur := genId, id_auth := b.id_auth, email := b.email,
    nom := b.nom, prenom := b.prenom, telephone := b.telephone, role := b.role,
    statut := "actif", date_inscription := now, derniere_connexion := now }

/-- serve handler of src/supabase/functions/create-user-profile.ts (POST
path; CORS preflight omitted). On insert error code 23505 it re-fetches the
row for the same id_auth: a found row is answered 200 with existed = true,
otherwise the insert error is rethrown and surfaces as a 500. A thrown
check or insert error surfaces as 500 with the error message. The audit-log
insert cannot change the response and is omitted. -/
def createUserProfileHandler (envPresent : Bool) (b : EdgeBody)
    (check : Except DbError (Option Profile)) (insert : Except DbError Nat)
    (refetch : Option Profile) (now : String) : EdgeResp :=
  if ¬envPresent then
    { status := 500, ok := false, error := some "Missing Supabase environment variables" }
  else if b.id_auth = "" ∨ b.email = "" then
    { status := 400, ok := false, error := some "Missing required fields: id_auth and email" }
  else
    match check with
    | .error e => { status := 500, ok := false, error := some e.message }
    | .ok (some existing) =>
      { status := 200, ok := true, profile := some existing, existed := some true }
    | .ok none =>
      match insert with
      | .error e =>
        if e.code = "23505" then
          match refetch with
          | some existing =>
            { status := 200, ok := true, profile := some existing, existed := some true }
          | none => { status := 500, ok := false, error := some e.message }
        else { status := 500, ok := false, error := some e.message }
      | .ok genId =>
        { status := 201, ok := true, profile := some (edgeCreatedRow b now genId),
          existed := some false }

/-- response.ok of the fetch API: status in [200, 300). -/
def httpOk (status : Nat) : Bool := 200 ≤ status && status < 300

/-- The hook's decoding of the link-profile response (part_000 lines
100-110): if response.ok and json.ok it returns json.user, otherwise it
throws new Error(json.error or the fallback message). -/
def provisionViaLink (r : LinkResp) : Except String Profile :=
  if httpOk r.status ∧ r.ok then
    match r.user with
    | some u => .ok u
    | none => .error (r.error.getD "Échec création profil")
  else .error (r.error.getD "Échec création profil")

/-- A constructed Supabase client handle, recording the connection
parameters it was built with. -/
structure Client where
  url : String
  key : String
deriving Repr, DecidableEq

/-- The external supabase-js v2 constructor (the repository pins
@supabase/supabase-js@2.39.0): createClient throws "supabaseUrl is
required." when the URL is absent and "supabaseKey is required." when the
key is absent (the empty string models a missing env value, matching JS
falsiness), and otherwise returns a handle built from the parameters. -/
def createClient (url key : String) : Except String Client :=
  if url = "" then .error "supabaseUrl is required."
  else if key = "" then .error "supabaseKey is required."
  else .ok { url := url, key := key }

/-- getSupabaseBrowser of src/lib/supabase.js. Inputs: whether window is
defined, the module-level env values, and the cached browserClient. Returns
the handle and the new cache. This variant performs no configuration check
of its own (missing env values are only logged at module load): it calls
createClient with whatever the module captured, and its catch block logs
and rethrows a constructor error, so an absent parameter surfaces as the
constructor's own error. -/
def getSupabaseBrowserLib (isBrowser : Bool) (url key : String)
    (cached : Option Client) : Except String (Client × Option Client) :=
  if ¬isBrowser then .error "getSupabaseBrowser appelé côté serveur"
  else
    match cached with
    | some c => .ok (c, some c)
    | none =>
      match createClient url key with
      | .ok c => .ok (c, some c)
      | .error e => .error e

/-- getSupabaseBrowser of the lib variant embedded in
src/hooks/useAuth-with-edge-function.js lines 994-1018: same caching, but
when no client is cached it throws its own error if either env value is
missing, before ever calling the constructor. -/
def getSupabaseBrowserFixed (isBrowser : Bool) (url key : String)
    (cached : Option Client) : Except String (Client × Option Client) :=
  if ¬isBrowser then .error "getSupabaseBrowser appelé côté serveur"
  else
    match cached with
    | some c => .ok (c, some c)
    | none =>
      if url = "" ∨ key = "" then
        .error "NEXT_PUBLIC_SUPABASE_URL ou NEXT_PUBLIC_SUPABASE_ANON_KEY manquant"
      else
        match createClient url key with
        | .ok c => .ok (c, some c)
        | .error e => .error e

/-- resetSupabaseClient of src/lib/supabase.js: discards the cached handle
(localStorage cleanup has no counterpart in this state). -/
def resetSupabaseClient (_cached : Option Client) : Option Client := none

/-- Outcome of one awaited getSession attempt as seen by initAuth: either
the promise resolved with { data.session, error } or it rejected (the
5-second race timeout rejects with the message "getSession timeout"). -/
inductive PullAttempt
  | resolved (s : Option Session) (err : Option String)
  | rejected (msg : String)
deriving Repr, DecidableEq

/-- The error initAuth extracts from a pull attempt (result.error, or the
caught rejection). -/
def pullErr : PullAttempt → Option String
  | .resolved _ e => e
  | .rejected m => some m

/-- The session initAuth extracts from a pull attempt. -/
def pullSession : PullAttempt → Option Session
  | .resolved s _ => s
  | .rejected _ => none

/-- Observable outcome of the session-pull region of initAuth (part_000
lines 204-249): how many resetSupabaseClient calls and getSession retries
happened, and whether the region surfaced a session or threw. -/
structure PullOut where
  resets : Nat
  retries : Nat
  outcome : Except String (Option Session)
deriving Repr, DecidableEq

/-- The session-pull region of initAuth: the first attempt is the 5-second
race; when it carries an error whose message includes "aborted" the code
resets the client and retries getSession once (a retry error or rejection
is thrown); any other error is thrown directly with no reset and no
retry. -/
def sessionPull (first retry : PullAttempt) : PullOut :=
  match pullErr first with
  | none => { resets := 0, retries := 0, outcome := .ok (pullSession first) }
  | some m =>
    if includesAborted m then
      match retry with
      | .resolved s none => { resets := 1, retries := 1, outcome := .ok s }
      | .resolved _ (some m2) => { resets := 1, retries := 1, outcome := .error m2 }
      | .rejected m2 => { resets := 1, retries := 1, outcome := .error m2 }
    else { resets := 0, retries := 0, outcome := .error m }

/-- The SessionController state owned by useAuth:
{ session, user, profile, loading, error }. -/
structure AuthState where
  session : Option Session
  user : Option AuthUser
  profile : Option Profile
  loading : Bool
  error : Option String
deriving Repr, DecidableEq

/-- State at mount: everything null, loading true. -/
def initialAuthState : AuthState :=
  { session := none, user := none, profile := none, loading := true, error := none }

/-- Controller state plus the isMounted liveness flag every asynchronous
continuation checks. -/
structure World where
  st : AuthState
  isMounted : Bool
deriving Repr, DecidableEq

/-- The world right after mount. -/
def initialWorld : World := { st := initialAuthState, isMounted := true }

/-- Atomic continuations of the controller, in the order their triggering
event resumes. initSessionResolved is the whole initAuth tail that runs
once the initial session pull resolved with a session: it writes
session/user, awaits the profile load (its result is the parameter) and
runs the catch and finally blocks. -/
inductive Step
  | initNoSession
  | initSessionResolved (s : Session) (profileResult : Except String (Option Profile))
  | signedIn (s : Session) (profileResult : Except String (Option Profile))
  | signedOut
  | unmount
deriving Repr, DecidableEq

/-- State transition of one continuation, following part_000: every handler
returns without mutating when isMounted is false; initNoSession (lines
253-261) clears session/user/profile and loading; initSessionResolved
(lines 263-291) sets session/user, then either stores the profile or sets
the error message, and the finally clears loading; the SIGNED_IN branch
(lines 305-326) does the same but also clears the error on success; the
SIGNED_OUT branch (lines 327-332) clears session, user, profile and error
and does not touch loading. -/
def applyStep (w : World) : Step → World
  | .initNoSession =>
    if w.isMounted then
      { w with st := { w.st with session := none, user := none, profile := none,
                                 loading := false } }
    else w
  | .initSessionResolved s pr =>
    if w.isMounted then
      let st1 := { w.st with session := some s, user := some s.user }
      let st2 :=
        match pr with
        | .ok p => { st1 with profile := p }
        | .error m => { st1 with error := some m }
      { w with st := { st2 with loading := false } }
    else w
  | .signedIn s pr =>
    if w.isMounted then
      let st1 := { w.st with session := some s, user := some s.user }
      let st2 :=
        match pr with
        | .ok p => { st1 with profile := p, error := none }
        | .error m => { st1 with error := some m }
      { w with st := { st2 with loading := false } }
    else w
  | .signedOut =>
    if w.isMounted then
      { w with st := { w.st with session := none, user := none, profile := none,
                                 error := none } }
    else w
  | .unmount => { w with isMounted := false }

/-- An interleaving: continuations applied in resumption order. -/
def runSteps (w : World) (steps : List Step) : World :=
  steps.foldl applyStep w

/-- Concrete auth principal used in concrete scenarios. -/
def sampleUser : AuthUser := { id := "u1", email := "a@x.com" }

/-- Concrete session for sampleUser. -/
def sampleSession : Session := { user := sampleUser }

/-- Concrete profile row for sampleUser. -/
def sampleProfile : Profile :=
  { id_utilisateur := 7, id_auth := "u1", email := "a@x.com", nom := "", prenom := "",
    telephone := "", role := "agriculteur", statut := "actif",
    date_inscription := "2024-01-01T00:00:00Z", derniere_connexion := "2024-01-01T00:00:00Z" }

/-- Environment where every profile query fails with the provider's
"signal is aborted" error. -/
def abortedEnv : LoadEnv :=
  { lookup := fun _ => .error "AbortError: signal is aborted",
    authEmail := "", provision := .error "unreached" }

/-- Environment whose profile query always finds the given row. -/
def hitEnv (p : Profile) : LoadEnv :=
  { lookup := fun _ => .ok (some p), authEmail := p.email, provision := .error "unreached" }

/-- Environment whose profile query fails once with the given non-aborted
message. -/
def failOnceEnv (msg : String) : LoadEnv :=
  { lookup := fun _ => .error msg, authEmail := "", provision := .error "unreached" }

/-- First-login environment: the lookup is a clean miss, auth.getUser
returns the given email, and provisioning goes through the link-profile
handler exactly as the hook wires it (POST body with the authId, that
email, blank names and role agriculteur; no existing row; insert
succeeds with the generated id). -/
def firstLoginEnv (authId email : String) (genId : Nat) (now : String) : LoadEnv :=
  { lookup := fun _ => .ok none,
    authEmail := email,
    provision := provisionViaLink (linkProfileHandler "POST"
      { id_auth := authId, email := email } true (.ok none) (.ok genId) now) }

/-- A uniqueness-constraint violation as Postgres reports it. -/
def dupErr : DbError :=
  { code := "23505", message := "duplicate key value violates unique constraint" }

/-- De-duplication scenario, first call: load(authId, 0) at time t1 against
a fresh marker set, with a row available. -/
def dedupCall1 (p : Profile) (id : String) (t1 : Nat) : LoadOut × List Marker :=
  callLoad (hitEnv p) [] t1 id

/-- De-duplication scenario, second call at time t2 against the markers the
first call left. -/
def dedupCall2 (p : Profile) (id : String) (t1 t2 : Nat) : LoadOut × List Marker :=
  callLoad (hitEnv p) (dedupCall1 p id t1).2 t2 id

/-- De-duplication scenario, third call at time t3 against the markers the
second call left. -/
def dedupCall3 (p : Profile) (id : String) (t1 t2 t3 : Nat) : LoadOut × List Marker :=
  callLoad (hitEnv p) (dedupCall2 p id t1 t2).2 t3 id

/-- C1: in the interleaving where the push SIGNED_OUT event is processed
first (clearing state) and the initial session pull then resolves with a
live session while the component is still mounted, the continuation writes
the session and user back into state: the terminated session is
resurrected, because the only liveness check of the continuation is
isMounted. This evaluates the code at the failing interleaving of the
claim; the claim (a required property of the spec) is violated. -/
theorem stale_pull_resurrects_session :
    (runSteps initialWorld
      [Step.signedOut,
       Step.initSessionResolved sampleSession (.ok (some sampleProfile))]).st.session
      = some sampleSession ∧
    (runSteps initialWorld
      [Step.signedOut,
       Step.initSessionResolved sampleSession (.ok (some sampleProfile))]).st.user
      = some sampleUser := by
  constructor <;> rfl

/-- C2: evaluating loadProfile (src/unnamed/part_000) where every attempt
fails with a "signal is aborted" error: the code does make 3 lookup
attempts (2 retries), but the caller then receives null instead of the
failure. The throw after the exhausted inner retry is caught by the same
function's catch block, whose duplicate retry re-enters loadProfile at
retryCount 2; that re-entry hits the still-present de-duplication marker
and returns null, which propagates to the caller as a successful load. -/
theorem loadProfile_aborted_swallows_failure :
    (loadProfile abortedEnv [] "u1" 0).result = .ok none ∧
    (loadProfile abortedEnv [] "u1" 0).lookups = 3 ∧
    (loadProfile abortedEnv [] "u1" 0).delays = 3 ∧
    (loadProfile abortedEnv [] "u1" 0).provisions = 0 := by
  refine ⟨?_, ?_, ?_, ?_⟩ <;> rfl

/-- C3 counterexample: a provision request served by the link-profile API
route that loses the creation race (insert fails with code 23505) is
answered 409 with ok = false and no profile: the constraint error is
propagated to the caller and no re-fetch happens, contrary to the claim. -/
theorem linkProfile_dup_propagates_409 :
    linkProfileHandler "POST" { id_auth := "u1", email := "a@x.com" } true
      (.ok none) (.error dupErr) "2024-01-01T00:00:00Z"
      = { status := 409, ok := false, user := none,
          error := some "Un profil avec cet email existe déjà" } := by
  rfl

/-- C5 counterexample: when the initial session pull fails with the
5-second timeout (the race rejects with "getSession timeout", a message
that does not include "aborted"), initAuth performs no reset and no retry
and surfaces the failure immediately, contrary to the claim that a timeout
triggers exactly one reset and one retry. -/
theorem sessionPull_timeout_no_reset :
    sessionPull (.rejected "getSession timeout") (.resolved (some sampleSession) none)
      = { resets := 0, retries := 0, outcome := .error "getSession timeout" } := by
  rfl

/-- C7 counterexample: loadProfile called with an empty authUserId returns
null to the caller with no lookup and no provisioning request; the result
is not an error, so the operation does not fail with InvalidArgument as the
claim states (an advisory failure is only logged to telemetry). -/
theorem loadProfile_empty_id_returns_null :
    (loadProfile (hitEnv sampleProfile) [] "" 0).result = .ok none ∧
    (loadProfile (hitEnv sampleProfile) [] "" 0).lookups = 0 ∧
    (loadProfile (hitEnv sampleProfile) [] "" 0).provisions = 0 := by
  refine ⟨?_, ?_, ?_⟩ <;> rfl

/-- C9: when the profile load of initAuth fails for a present session while
the component is mounted, the continuation sets the error message and
clears loading, the session and user keep the values set before the load,
and the profile field is untouched: a profile failure never logs the user
out. -/
theorem profile_failure_keeps_session (w : World) (hm : w.isMounted = true)
    (s : Session) (m : String) :
    (applyStep w (.initSessionResolved s (.error m))).st.session = some s ∧
    (applyStep w (.initSessionResolved s (.error m))).st.user = some s.user ∧
    (applyStep w (.initSessionResolved s (.error m))).st.profile = w.st.profile ∧
    (applyStep w (.initSessionResolved s (.error m))).st.error = some m ∧
    (applyStep w (.initSessionResolved s (.error m))).st.loading = false := by
  simp [applyStep, hm]

/-- C9 witness: the theorem applied at the initial world with the sample
session and a concrete error message. -/
theorem profile_failure_keeps_session_witness :
    (applyStep initialWorld (.initSessionResolved sampleSession (.error "boom"))).st.session
      = some sampleSession ∧
    (applyStep initialWorld (.initSessionResolved sampleSession (.error "boom"))).st.loading
      = false := by
  have h := profile_failure_keeps_session initialWorld rfl sampleSession "boom"
  exact ⟨h.1, h.2.2.2.2⟩

/-- C10: the SIGNED_OUT handler clears session, user, profile and error and
never writes the loading flag, so a session-terminated event that arrives
while loading is true leaves a state with no session and loading still
true. -/
theorem signedOut_clears_all_but_loading (w : World) (hm : w.isMounted = true) :
    (applyStep w .signedOut).st.session = none ∧
    (applyStep w .signedOut).st.user = none ∧
    (applyStep w .signedOut).st.profile = none ∧
    (applyStep w .signedOut).st.error = none ∧
    (applyStep w .signedOut).st.loading = w.st.loading := by
  simp [applyStep, hm]

/-- C10 witness: the theorem applied at the initial world, whose loading
flag is true: after SIGNED_OUT the session is gone yet loading is still
true. -/
theorem signedOut_clears_all_but_loading_witness :
    (applyStep initialWorld .signedOut).st.session = none ∧
    (applyStep initialWorld .signedOut).st.loading = true := by
  have h := signedOut_clears_all_but_loading initialWorld rfl
  exact ⟨h.1, h.2.2.2.2⟩

/-- C5 amended: during initialization, only a session-pull error whose
message includes "aborted" triggers exactly one resetSupabaseClient call
and one getSession retry (whose failure, if any, is then surfaced); any
other error — the 5-second timeout included — is surfaced immediately with
no reset and no retry. -/
theorem sessionPull_reset_only_on_aborted (first retry : PullAttempt) (m : String)
    (he : pullErr first = some m) :
    (includesAborted m = true →
      (sessionPull first retry).resets = 1 ∧
      (sessionPull first retry).retries = 1 ∧
      (∀ s, retry = .resolved s none → (sessionPull first retry).outcome = .ok s) ∧
      (∀ s m2, retry = .resolved s (some m2) →
        (sessionPull first retry).outcome = .error m2) ∧
      (∀ m2, retry = .rejected m2 → (sessionPull first retry).outcome = .error m2)) ∧
    (includesAborted m = false →
      sessionPull first retry = { resets := 0, retries := 0, outcome := .error m }) := by
  constructor
  · intro hab
    refine ⟨?_, ?_, ?_, ?_, ?_⟩
    · cases retry with
      | resolved s e => cases e <;> simp [sessionPull, he, hab]
      | rejected m2 => simp [sessionPull, he, hab]
    · cases retry with
      | resolved s e => cases e <;> simp [sessionPull, he, hab]
      | rejected m2 => simp [sessionPull, he, hab]
    · intro s hr; subst hr; simp [sessionPull, he, hab]
    · intro s m2 hr; subst hr; simp [sessionPull, he, hab]
    · intro m2 hr; subst hr; simp [sessionPull, he, hab]
  · intro hab
    simp [sessionPull, he, hab]

/-- C5 amended witness: an aborted first pull resets and retries once and
the successful retry yields the session. -/
theorem sessionPull_reset_only_on_aborted_witness :
    (sessionPull (.rejected "AbortError: signal is aborted")
        (.resolved (some sampleSession) none)).resets = 1 ∧
    (sessionPull (.rejected "AbortError: signal is aborted")
        (.resolved (some sampleSession) none)).outcome = .ok (some sampleSession) := by
  have h := sessionPull_reset_only_on_aborted
    (.rejected "AbortError: signal is aborted") (.resolved (some sampleSession) none)
    "AbortError: signal is aborted" rfl
  have h1 := h.1 (by rfl)
  exact ⟨h1.1, h1.2.2.1 (some sampleSession) rfl⟩

/-- C3 amended: a provision request that loses the creation race is
recovered only by the edge-function provisioner — on insert error 23505 it
re-fetches and, the row being found, answers 200 with the existing profile
and existed = true, propagating no error; the link-profile API route
instead answers the same situation with 409 and ok = false, surfacing the
constraint violation without re-fetching. -/
theorem provision_dup_recovery (b : EdgeBody) (hid : b.id_auth ≠ "")
    (hem : b.email ≠ "") (e : DbError) (hc : e.code = "23505") (p : Profile)
    (now : String) (lb : LinkBody) (hlid : lb.id_auth ≠ "") (hlem : lb.email ≠ "") :
    createUserProfileHandler true b (.ok none) (.error e) (some p) now
      = { status := 200, ok := true, profile := some p, existed := some true } ∧
    (linkProfileHandler "POST" lb true (.ok none) (.error e) now).status = 409 ∧
    (linkProfileHandler "POST" lb true (.ok none) (.error e) now).ok = false := by
  refine ⟨?_, ?_, ?_⟩ <;>
    simp [createUserProfileHandler, linkProfileHandler, hid, hem, hc, hlid, hlem]

/-- C3 amended witness: the theorem applied at a concrete lost race. -/
theorem provision_dup_recovery_witness :
    (createUserProfileHandler true { id_auth := "u1", email := "a@x.com" }
        (.ok none) (.error dupErr) (some sampleProfile) "2024-01-01T00:00:00Z").existed
      = some true ∧
    (linkProfileHandler "POST" { id_auth := "u1", email := "a@x.com" } true
        (.ok none) (.error dupErr) "2024-01-01T00:00:00Z").status = 409 := by
  have h := provision_dup_recovery { id_auth := "u1", email := "a@x.com" }
    (by decide) (by decide) dupErr rfl sampleProfile "2024-01-01T00:00:00Z"
    { id_auth := "u1", email := "a@x.com" } (by decide) (by decide)
  exact ⟨by rw [h.1], h.2.1⟩

/-- C7 amended: a loadProfile call with an empty authUserId returns null
immediately — no lookup, no provisioning request — for every environment,
marker set and retryCount; the invalid argument is only recorded to
telemetry, no error surfaces to the caller. -/
theorem loadProfile_empty_id_fast (env : LoadEnv) (markers : List (String × Nat))
    (rc : Nat) :
    (loadProfile env markers "" rc).result = .ok none ∧
    (loadProfile env markers "" rc).lookups = 0 ∧
    (loadProfile env markers "" rc).provisions = 0 := by
  refine ⟨?_, ?_, ?_⟩ <;>
    (simp [loadProfile, loadGo]; split <;> rfl)

/-- C8: both getClient variants fail when a required connection parameter
is absent — getSupabaseBrowser of src/lib/supabase.js because the external
createClient constructor throws and the catch rethrows, the embedded lib
variant through its own check — and both are lazily-constructed
process-local singletons: with parameters present a fresh call constructs
and caches the handle, a repeated call returns the cached handle unchanged
without reconstructing it, and reset discards the cache so the next call
rebuilds. -/
theorem getClient_config_and_singleton (url key : String) (hu : url ≠ "")
    (hk : key ≠ "") (c : Client) :
    (∀ k, getSupabaseBrowserLib true "" k none = .error "supabaseUrl is required.") ∧
    (getSupabaseBrowserLib true url "" none = .error "supabaseKey is required.") ∧
    (∀ k, getSupabaseBrowserFixed true "" k none
      = .error "NEXT_PUBLIC_SUPABASE_URL ou NEXT_PUBLIC_SUPABASE_ANON_KEY manquant") ∧
    (∀ u, getSupabaseBrowserFixed true u "" none
      = .error "NEXT_PUBLIC_SUPABASE_URL ou NEXT_PUBLIC_SUPABASE_ANON_KEY manquant") ∧
    getSupabaseBrowserLib true url key none
      = .ok ({ url := url, key := key }, some { url := url, key := key }) ∧
    getSupabaseBrowserFixed true url key none
      = .ok ({ url := url, key := key }, some { url := url, key := key }) ∧
    getSupabaseBrowserLib true url key (some c) = .ok (c, some c) ∧
    getSupabaseBrowserFixed true url key (some c) = .ok (c, some c) ∧
    resetSupabaseClient (some c) = none := by
  refine ⟨?_, ?_, ?_, ?_, ?_, ?_, ?_, ?_, ?_⟩ <;>
    simp [getSupabaseBrowserFixed, getSupabaseBrowserLib, createClient,
          resetSupabaseClient, hu, hk]

/-- C8 witness: the theorem applied at concrete parameters and a concrete
cached client: a missing URL fails in both variants, and a cached handle is
returned unchanged. -/
theorem getClient_config_and_singleton_witness :
    getSupabaseBrowserLib true "" "anon" none = .error "supabaseUrl is required." ∧
    getSupabaseBrowserFixed true "" "anon" none
      = .error "NEXT_PUBLIC_SUPABASE_URL ou NEXT_PUBLIC_SUPABASE_ANON_KEY manquant" ∧
    getSupabaseBrowserLib true "https://x.supabase.co" "anon"
        (some { url := "https://x.supabase.co", key := "anon" })
      = .ok ({ url := "https://x.supabase.co", key := "anon" },
             some { url := "https://x.supabase.co", key := "anon" }) := by
  have h := getClient_config_and_singleton "https://x.supabase.co" "anon"
    (by decide) (by decide) { url := "https://x.supabase.co", key := "anon" }
  exact ⟨h.1 "anon", h.2.2.1 "anon", h.2.2.2.2.2.2.1⟩

/-- C6: first login — for a non-empty authId with no existing profile row,
loadProfile returns the newly provisioned profile, whose role is
agriculteur and whose statut is actif (the value the spec renders as the
status "active"), after exactly one lookup and exactly one call of the
provisioning endpoint; the edge-function provisioner applies the same
defaults on its insert path (status 201, role agriculteur, statut actif). -/
theorem loadProfile_first_login (authId email : String) (ha : authId ≠ "")
    (he : email ≠ "") (genId : Nat) (now : String) :
    (loadProfile (firstLoginEnv authId email genId now) [] authId 0).result
      = .ok (some (createdRow { id_auth := authId, email := email } now genId)) ∧
    (createdRow { id_auth := authId, email := email } now genId).role = "agriculteur" ∧
    (createdRow { id_auth := authId, email := email } now genId).statut = "actif" ∧
    (loadProfile (firstLoginEnv authId email genId now) [] authId 0).provisions = 1 ∧
    (loadProfile (firstLoginEnv authId email genId now) [] authId 0).lookups = 1 ∧
    (createUserProfileHandler true { id_auth := authId, email := email }
        (.ok none) (.ok genId) none now).status = 201 ∧
    (createUserProfileHandler true { id_auth := authId, email := email }
        (.ok none) (.ok genId) none now).profile
      = some (edgeCreatedRow { id_auth := authId, email := email } now genId) ∧
    (edgeCreatedRow { id_auth := authId, email := email } now genId).role
      = "agriculteur" ∧
    (edgeCreatedRow { id_auth := authId, email := email } now genId).statut
      = "actif" := by
  refine ⟨?_, rfl, rfl, ?_, ?_, ?_, ?_, rfl, rfl⟩ <;>
    simp [loadProfile, loadGo, firstLoginEnv, provisionViaLink, linkProfileHandler,
          createUserProfileHandler, httpOk, createdRow, ha, he]

/-- C6 witness: the theorem applied at the scenario of the spec
(authId u1, email a@x.com). -/
theorem loadProfile_first_login_witness :
    (loadProfile (firstLoginEnv "u1" "a@x.com" 7 "2024-01-01T00:00:00Z") [] "u1" 0).result
      = .ok (some (createdRow { id_auth := "u1", email := "a@x.com" }
          "2024-01-01T00:00:00Z" 7)) ∧
    (loadProfile (firstLoginEnv "u1" "a@x.com" 7 "2024-01-01T00:00:00Z") [] "u1" 0).provisions
      = 1 := by
  have h := loadProfile_first_login "u1" "a@x.com" (by decide) (by decide) 7
    "2024-01-01T00:00:00Z"
  exact ⟨h.1, h.2.2.2.1⟩

/-- C4: two load(authId, 0) calls inside the de-duplication window make
exactly one underlying lookup — the first call performs it, the second
finds the (authId, 0) marker and returns null without any lookup or
provisioning request; the marker expires 5 time units after the first call,
so a third call past the window is not suppressed and performs its own
lookup. -/
theorem loadProfile_dedup (p : Profile) (id : String) (h : id ≠ "")
    (t1 t2 t3 : Nat) (h2 : t2 < t1 + dedupWindow) (h3 : t1 + dedupWindow ≤ t3) :
    ((dedupCall1 p id t1).1.result = .ok (some p) ∧
     (dedupCall1 p id t1).1.lookups = 1) ∧
    ((dedupCall2 p id t1 t2).1.result = .ok none ∧
     (dedupCall2 p id t1 t2).1.lookups = 0 ∧
     (dedupCall2 p id t1 t2).1.provisions = 0) ∧
    ((dedupCall3 p id t1 t2 t3).1.result = .ok (some p) ∧
     (dedupCall3 p id t1 t2 t3).1.lookups = 1) := by
  have e1 : dedupCall1 p id t1 =
      ({ result := .ok (some p), lookups := 1, provisions := 0, delays := 0,
         markers := [(id, 0)], added := [(id, 0)], scheduled := [(id, 0)] },
       [{ key := (id, 0), expires := some (t1 + dedupWindow) }]) := by
    simp [dedupCall1, callLoad, liveMarkers, loadProfile, loadGo, hitEnv, h]
  have d2 : decide (t2 < t1 + dedupWindow) = true := decide_eq_true h2
  have e2 : dedupCall2 p id t1 t2 =
      ({ result := .ok none, lookups := 0, provisions := 0, delays := 0,
         markers := [(id, 0)], added := [], scheduled := [] },
       [{ key := (id, 0), expires := some (t1 + dedupWindow) }]) := by
    simp [dedupCall2, e1, callLoad, liveMarkers, loadProfile, loadGo, hitEnv, d2]
  have d3 : decide (t3 < t1 + dedupWindow) = false := decide_eq_false (by omega)
  have e3 : dedupCall3 p id t1 t2 t3 =
      ({ result := .ok (some p), lookups := 1, provisions := 0, delays := 0,
         markers := [(id, 0)], added := [(id, 0)], scheduled := [(id, 0)] },
       [{ key := (id, 0), expires := some (t3 + dedupWindow) }]) := by
    simp [dedupCall3, e2, callLoad, liveMarkers, loadProfile, loadGo, hitEnv, h, d3]
  simp [e1, e2, e3]

/-- C4 witness: the theorem applied at the sample profile with the second
call 1 time unit after the first and the third exactly at the window
boundary. -/
theorem loadProfile_dedup_witness :
    (dedupCall1 sampleProfile "u1" 0).1.lookups = 1 ∧
    (dedupCall2 sampleProfile "u1" 0 1000).1.result = .ok none ∧
    (dedupCall2 sampleProfile "u1" 0 1000).1.lookups = 0 ∧
    (dedupCall3 sampleProfile "u1" 0 1000 5000).1.lookups = 1 := by
  have h := loadProfile_dedup sampleProfile "u1" (by decide) 0 1000 5000
    (by decide) (by decide)
  exact ⟨h.1.2, h.2.1.1, h.2.1.2.1, h.2.2.2⟩

end HarvestMore
